import Mathlib

/-!
Verification of the RenovaFlow server and client logic.

The definitions below are a shallow embedding of the request handlers in
`src/server.ts` and of the billing-update client logic in `src/src/App.tsx`.
The database (better-sqlite3, foreign keys enforced, `ON DELETE CASCADE`
declared on every child table) is modelled as lists of rows; each SQL
statement becomes a pure function on that state.  Statements that can fail
(INSERT hitting a PRIMARY KEY, UNIQUE or FOREIGN KEY constraint) return
`Except`; `db.transaction` semantics are: on any error the whole state
reverts to its pre-transaction value.
-/

namespace RenovaFlow

/-- Row of the `users` table (`id` PRIMARY KEY, `email` UNIQUE). -/
structure UserRow where
  id : String
  email : String
  password : String
  name : String
  role : String
  remarks : Option String
  isActive : Bool
deriving DecidableEq, Repr

/-- Row of the `projects` table; all columns after `id` are nullable TEXT,
`status` is kept as a plain string because every write path supplies one. -/
structure ProjectRow where
  id : String
  status : String
  estimateDate : Option String
  orderDate : Option String
  constructionStartDate : Option String
  completionDate : Option String
  paymentDate : Option String
  title : Option String
  propertyName : Option String
  estimateRemarks : Option String
  orderRemarks : Option String
  paymentMethod : Option String
  paymentRemarks : Option String
  constructionRemarks : Option String
  billingRemarks : Option String
  outboundPaymentRemarks : Option String
  customerName : Option String
  customerZipCode : Option String
  customerAddress : Option String
  customerTel : Option String
  customerEmail : Option String
deriving DecidableEq, Repr

/-- Row of the `construction_staff` table. -/
structure StaffRow where
  id : String
  projectId : String
  name : Option String
  zipCode : Option String
  address : Option String
  tel : Option String
  email : Option String
deriving DecidableEq, Repr

/-- Row of the `billing_items` table; `isBilled`/`isPaid` are INTEGER 0/1
columns that every write path sets from a boolean, hence `Bool` here. -/
structure BillingRow where
  id : String
  projectId : String
  name : Option String
  amount : Option Int
  expectedPaymentDate : Option String
  isBilled : Bool
  isPaid : Bool
deriving DecidableEq, Repr

/-- Row of the `outbound_payments` table. -/
structure OutboundRow where
  id : String
  projectId : String
  recipient : Option String
  amount : Option Int
  expectedDate : Option String
  isPaid : Bool
deriving DecidableEq, Repr

/-- Row of the `files` table. -/
structure FileRow where
  id : String
  projectId : String
  name : Option String
  url : Option String
deriving DecidableEq, Repr

/-- The whole SQLite database `renovaflow.db`. -/
structure DBState where
  users : List UserRow
  projects : List ProjectRow
  staff : List StaffRow
  billing : List BillingRow
  outbound : List OutboundRow
  files : List FileRow
deriving DecidableEq, Repr

/-- HTTP responses the modelled handlers produce. -/
inductive Response where
  | success
  | notFound
  | badRequest (msg : String)
  | serverError (msg : String)
deriving DecidableEq, Repr

/-- The seven values of the `ProjectStatus` union type in `src/src/types.ts`. -/
def statusDomain : List String :=
  ["見積", "発注", "施工", "請求", "入金", "支払い", "キャンセル案件"]

/-- The `Billing` status literal. -/
def statusBilling : String := "請求"

/-- The `Payment-In` status literal. -/
def statusPaymentIn : String := "入金"

/-- `SELECT * FROM projects WHERE id = ?` (first row). -/
def findProject (s : DBState) (pid : String) : Option ProjectRow :=
  s.projects.find? (fun p => p.id == pid)

/-- `SELECT * FROM billing_items WHERE id = ?` (first row). -/
def findBillingItem (s : DBState) (iid : String) : Option BillingRow :=
  s.billing.find? (fun b => b.id == iid)

/-- `SELECT * FROM outbound_payments WHERE id = ?` (first row). -/
def findOutboundPayment (s : DBState) (iid : String) : Option OutboundRow :=
  s.outbound.find? (fun o => o.id == iid)

/-- `SELECT * FROM construction_staff WHERE projectId = ?`. -/
def staffOf (s : DBState) (pid : String) : List StaffRow :=
  s.staff.filter (fun r => r.projectId == pid)

/-- `SELECT * FROM billing_items WHERE projectId = ?`. -/
def billingOf (s : DBState) (pid : String) : List BillingRow :=
  s.billing.filter (fun b => b.projectId == pid)

/-- `SELECT * FROM outbound_payments WHERE projectId = ?`. -/
def outboundOf (s : DBState) (pid : String) : List OutboundRow :=
  s.outbound.filter (fun o => o.projectId == pid)

/-- `SELECT * FROM files WHERE projectId = ?`. -/
def filesOf (s : DBState) (pid : String) : List FileRow :=
  s.files.filter (fun f => f.projectId == pid)

/-- `UPDATE projects SET ... WHERE id = ?`: applies `f` to every matching row
(never fails: the `projects` table has no constraint beyond its key, which is
not modified). -/
def updateProjectCol (s : DBState) (pid : String) (f : ProjectRow → ProjectRow) : DBState :=
  { s with projects := s.projects.map (fun p => if p.id == pid then f p else p) }

/-- Body of `PATCH /api/projects/:id`: any subset of status and the six
remark fields; `none` means the field was absent from the JSON body. -/
structure PatchProjectReq where
  status : Option String := none
  estimateRemarks : Option String := none
  orderRemarks : Option String := none
  constructionRemarks : Option String := none
  billingRemarks : Option String := none
  paymentRemarks : Option String := none
  outboundPaymentRemarks : Option String := none
deriving DecidableEq, Repr

/-- Handler of `PATCH /api/projects/:id` (server.ts lines 384-413): one
single-column UPDATE per supplied field, then `{success:true}` — with no
check that the project exists. -/
def patchProject (s : DBState) (pid : String) (r : PatchProjectReq) : Response × DBState :=
  let s := match r.status with
    | some v => updateProjectCol s pid (fun p => { p with status := v })
    | none => s
  let s := match r.estimateRemarks with
    | some v => updateProjectCol s pid (fun p => { p with estimateRemarks := some v })
    | none => s
  let s := match r.orderRemarks with
    | some v => updateProjectCol s pid (fun p => { p with orderRemarks := some v })
    | none => s
  let s := match r.constructionRemarks with
    | some v => updateProjectCol s pid (fun p => { p with constructionRemarks := some v })
    | none => s
  let s := match r.billingRemarks with
    | some v => updateProjectCol s pid (fun p => { p with billingRemarks := some v })
    | none => s
  let s := match r.paymentRemarks with
    | some v => updateProjectCol s pid (fun p => { p with paymentRemarks := some v })
    | none => s
  let s := match r.outboundPaymentRemarks with
    | some v => updateProjectCol s pid (fun p => { p with outboundPaymentRemarks := some v })
    | none => s
  (Response.success, s)

/-- Body of `PATCH /api/billing_items/:id`; `none` = field absent, and the
boolean is the JS truthiness of the supplied value (`isBilled ? 1 : 0`). -/
structure BillingPatchReq where
  isBilled : Option Bool := none
  isPaid : Option Bool := none
deriving DecidableEq, Repr

/-- Handler of `PATCH /api/billing_items/:id` (server.ts lines 415-424):
writes each supplied flag verbatim and always answers `{success:true}`. -/
def patchBillingItems (s : DBState) (iid : String) (r : BillingPatchReq) : Response × DBState :=
  let s := match r.isBilled with
    | some b =>
        { s with billing :=
            s.billing.map (fun x => if x.id == iid then { x with isBilled := b } else x) }
    | none => s
  let s := match r.isPaid with
    | some b =>
        { s with billing :=
            s.billing.map (fun x => if x.id == iid then { x with isPaid := b } else x) }
    | none => s
  (Response.success, s)

/-- Body of `PATCH /api/outbound_payments/:id`. -/
structure OutboundPatchReq where
  isPaid : Option Bool := none
deriving DecidableEq, Repr

/-- Handler of `PATCH /api/outbound_payments/:id` (server.ts lines 426-432). -/
def patchOutboundPayments (s : DBState) (iid : String) (r : OutboundPatchReq) : Response × DBState :=
  let s := match r.isPaid with
    | some b =>
        { s with outbound :=
            s.outbound.map (fun x => if x.id == iid then { x with isPaid := b } else x) }
    | none => s
  (Response.success, s)

/-- Handler of `DELETE /api/projects/:id` (server.ts lines 511-514):
`DELETE FROM projects WHERE id = ?`, whose `ON DELETE CASCADE` clauses remove
all child rows referencing a deleted project row; always `{success:true}`. -/
def deleteProject (s : DBState) (pid : String) : Response × DBState :=
  let s :=
    if s.projects.any (fun p => p.id == pid) then
      { users := s.users
        projects := s.projects.filter (fun p => !(p.id == pid))
        staff := s.staff.filter (fun r => !(r.projectId == pid))
        billing := s.billing.filter (fun b => !(b.projectId == pid))
        outbound := s.outbound.filter (fun o => !(o.projectId == pid))
        files := s.files.filter (fun f => !(f.projectId == pid)) }
    else s
  (Response.success, s)

/-- Result of `GET /api/projects/:id` (server.ts lines 364-382). -/
inductive GetProjectResult where
  | notFound
  | found (project : ProjectRow) (staff : List StaffRow) (billing : List BillingRow)
      (outbound : List OutboundRow) (files : List FileRow)
deriving DecidableEq, Repr

/-- Handler of `GET /api/projects/:id`: 404 when no project row matches,
otherwise the project with its three child collections and files inlined. -/
def getProject (s : DBState) (pid : String) : GetProjectResult :=
  match findProject s pid with
  | none => GetProjectResult.notFound
  | some p => GetProjectResult.found p (staffOf s pid) (billingOf s pid) (outboundOf s pid) (filesOf s pid)

/-- Body of `POST /api/users`. -/
structure UserReq where
  id : String
  email : String
  password : String
  name : String
  role : String
  remarks : Option String
deriving DecidableEq, Repr

/-- Handler of `POST /api/users` (server.ts lines 606-615): a single INSERT
with `isActive = 1`; on any constraint violation (duplicate `id` PRIMARY KEY
or duplicate `email` UNIQUE) the insert throws, the catch block answers
400 with the text shown, and the table is left as it was. -/
def createUser (s : DBState) (r : UserReq) : Response × DBState :=
  if s.users.any (fun u => u.id == r.id || u.email == r.email) then
    (Response.badRequest "Email already exists", s)
  else
    (Response.success,
      { s with users := s.users ++ [⟨r.id, r.email, r.password, r.name, r.role, r.remarks, true⟩] })

/-- Client function `handleStatusUpdate` in `src/src/App.tsx`: a PATCH of the
status field alone (navigation side effects omitted: they do not touch the
store). -/
def handleStatusUpdate (s : DBState) (pid : String) (newStatus : String) : DBState :=
  (patchProject s pid { status := some newStatus }).2

/-- Client function `handleBillingItemUpdate` in `src/src/App.tsx` (lines
1165-1187), composed with the server handlers it calls: PATCH the billing
item, refetch the project, and when the body carried `isBilled`, every
fetched billing item is billed and the fetched status is `請求` (Billing),
PATCH the status to `入金` (Payment-In). -/
def handleBillingItemUpdate (s : DBState) (pid : String) (itemId : String)
    (u : BillingPatchReq) : DBState :=
  let s1 := (patchBillingItems s itemId u).2
  match findProject s1 pid with
  | none => s1
  | some p =>
    if u.isBilled.isSome then
      if (billingOf s1 pid).all (fun b => b.isBilled) && (p.status == statusBilling) then
        handleStatusUpdate s1 pid statusPaymentIn
      else s1
    else s1

/-- A construction-staff entry in a `PUT /api/projects/:id` body; `id = none`
models a falsy `staff.id` (absent, null or empty), for which the handler
generates `Date.now().toString() + Math.random()`. -/
structure StaffReq where
  id : Option String
  name : Option String
  zipCode : Option String
  address : Option String
  tel : Option String
  email : Option String
deriving DecidableEq, Repr

/-- A billing-item entry in a `PUT` body; the flags are the JS truthiness of
`bill.isBilled` / `bill.isPaid`. -/
structure BillingReq where
  id : Option String
  name : Option String
  amount : Option Int
  expectedPaymentDate : Option String
  isBilled : Bool
  isPaid : Bool
deriving DecidableEq, Repr

/-- An outbound-payment entry in a `PUT` body. -/
structure OutboundReq where
  id : Option String
  recipient : Option String
  amount : Option Int
  expectedDate : Option String
  isPaid : Bool
deriving DecidableEq, Repr

/-- Body of `PUT /api/projects/:id`: the full project field set (everything
the UPDATE statement binds — note `paymentMethod` is not among them) plus the
three replacement collections; a missing or non-array collection behaves as
the empty list (the DELETE still runs, no inserts follow). -/
structure PutReq where
  status : String
  estimateDate : Option String
  orderDate : Option String
  constructionStartDate : Option String
  completionDate : Option String
  paymentDate : Option String
  title : Option String
  propertyName : Option String
  estimateRemarks : Option String
  orderRemarks : Option String
  constructionRemarks : Option String
  billingRemarks : Option String
  paymentRemarks : Option String
  outboundPaymentRemarks : Option String
  customerName : Option String
  customerZipCode : Option String
  customerAddress : Option String
  customerTel : Option String
  customerEmail : Option String
  constructionStaff : List StaffReq
  billingItems : List BillingReq
  outboundPayments : List OutboundReq
deriving DecidableEq, Repr

/-- The 19 column assignments of the UPDATE statement in the PUT handler
(`id` and `paymentMethod` are untouched). -/
def applyPutFields (r : PutReq) (p : ProjectRow) : ProjectRow :=
  { p with
    status := r.status
    estimateDate := r.estimateDate
    orderDate := r.orderDate
    constructionStartDate := r.constructionStartDate
    completionDate := r.completionDate
    paymentDate := r.paymentDate
    title := r.title
    propertyName := r.propertyName
    estimateRemarks := r.estimateRemarks
    orderRemarks := r.orderRemarks
    constructionRemarks := r.constructionRemarks
    billingRemarks := r.billingRemarks
    paymentRemarks := r.paymentRemarks
    outboundPaymentRemarks := r.outboundPaymentRemarks
    customerName := r.customerName
    customerZipCode := r.customerZipCode
    customerAddress := r.customerAddress
    customerTel := r.customerTel
    customerEmail := r.customerEmail }

/-- `UPDATE projects SET ... WHERE id = ?` inside the PUT transaction. -/
def updateProject (s : DBState) (pid : String) (r : PutReq) : DBState :=
  { s with projects := s.projects.map (fun p => if p.id == pid then applyPutFields r p else p) }

/-- `DELETE FROM construction_staff WHERE projectId = ?`. -/
def deleteStaffOf (s : DBState) (pid : String) : DBState :=
  { s with staff := s.staff.filter (fun r => !(r.projectId == pid)) }

/-- `DELETE FROM billing_items WHERE projectId = ?`. -/
def deleteBillingOf (s : DBState) (pid : String) : DBState :=
  { s with billing := s.billing.filter (fun b => !(b.projectId == pid)) }

/-- `DELETE FROM outbound_payments WHERE projectId = ?`. -/
def deleteOutboundOf (s : DBState) (pid : String) : DBState :=
  { s with outbound := s.outbound.filter (fun o => !(o.projectId == pid)) }

/-- `staff.id || Date.now().toString() + Math.random()`: keep a truthy given
id, otherwise consume the next generated identifier. -/
def freshChildId (gen : Nat → String) (n : Nat) (given : Option String) : String × Nat :=
  match given with
  | some i => (i, n)
  | none => (gen n, n + 1)

/-- One INSERT into `construction_staff`: fails on a duplicate PRIMARY KEY or
(foreign keys are on in better-sqlite3) a missing parent project. -/
def insertStaffRow (s : DBState) (row : StaffRow) : Except String DBState :=
  if s.staff.any (fun r => r.id == row.id) then
    Except.error "UNIQUE constraint failed: construction_staff.id"
  else if !(s.projects.any (fun p => p.id == row.projectId)) then
    Except.error "FOREIGN KEY constraint failed"
  else
    Except.ok { s with staff := s.staff ++ [row] }

/-- One INSERT into `billing_items`. -/
def insertBillingRow (s : DBState) (row : BillingRow) : Except String DBState :=
  if s.billing.any (fun b => b.id == row.id) then
    Except.error "UNIQUE constraint failed: billing_items.id"
  else if !(s.projects.any (fun p => p.id == row.projectId)) then
    Except.error "FOREIGN KEY constraint failed"
  else
    Except.ok { s with billing := s.billing ++ [row] }

/-- One INSERT into `outbound_payments`. -/
def insertOutboundRow (s : DBState) (row : OutboundRow) : Except String DBState :=
  if s.outbound.any (fun o => o.id == row.id) then
    Except.error "UNIQUE constraint failed: outbound_payments.id"
  else if !(s.projects.any (fun p => p.id == row.projectId)) then
    Except.error "FOREIGN KEY constraint failed"
  else
    Except.ok { s with outbound := s.outbound ++ [row] }

/-- The staff row the PUT handler binds for one request entry. -/
def staffRowOfReq (pid : String) (i : String) (r : StaffReq) : StaffRow :=
  ⟨i, pid, r.name, r.zipCode, r.address, r.tel, r.email⟩

/-- The billing row the PUT handler binds for one request entry. -/
def billingRowOfReq (pid : String) (i : String) (r : BillingReq) : BillingRow :=
  ⟨i, pid, r.name, r.amount, r.expectedPaymentDate, r.isBilled, r.isPaid⟩

/-- The outbound row the PUT handler binds for one request entry. -/
def outboundRowOfReq (pid : String) (i : String) (r : OutboundReq) : OutboundRow :=
  ⟨i, pid, r.recipient, r.amount, r.expectedDate, r.isPaid⟩

/-- The staff-insert loop of the PUT transaction, threading the generated-id
counter. -/
def insertStaffList (gen : Nat → String) (pid : String) :
    DBState → Nat → List StaffReq → Except String (DBState × Nat)
  | s, n, [] => Except.ok (s, n)
  | s, n, r :: rs =>
    let (i, n') := freshChildId gen n r.id
    match insertStaffRow s (staffRowOfReq pid i r) with
    | Except.error e => Except.error e
    | Except.ok s' => insertStaffList gen pid s' n' rs

/-- The billing-insert loop of the PUT transaction. -/
def insertBillingList (gen : Nat → String) (pid : String) :
    DBState → Nat → List BillingReq → Except String (DBState × Nat)
  | s, n, [] => Except.ok (s, n)
  | s, n, r :: rs =>
    let (i, n') := freshChildId gen n r.id
    match insertBillingRow s (billingRowOfReq pid i r) with
    | Except.error e => Except.error e
    | Except.ok s' => insertBillingList gen pid s' n' rs

/-- The outbound-insert loop of the PUT transaction. -/
def insertOutboundList (gen : Nat → String) (pid : String) :
    DBState → Nat → List OutboundReq → Except String (DBState × Nat)
  | s, n, [] => Except.ok (s, n)
  | s, n, r :: rs =>
    let (i, n') := freshChildId gen n r.id
    match insertOutboundRow s (outboundRowOfReq pid i r) with
    | Except.error e => Except.error e
    | Except.ok s' => insertOutboundList gen pid s' n' rs

/-- Body of the `db.transaction` in the PUT handler (server.ts lines
470-498): update the project row, then for each child kind delete all rows of
the project and reinsert the supplied entries in order. -/
def putTx (gen : Nat → String) (s : DBState) (pid : String) (r : PutReq) :
    Except String DBState := do
  let s := updateProject s pid r
  let s := deleteStaffOf s pid
  let (s, n) ← insertStaffList gen pid s 0 r.constructionStaff
  let s := deleteBillingOf s pid
  let (s, n) ← insertBillingList gen pid s n r.billingItems
  let s := deleteOutboundOf s pid
  let (s, _) ← insertOutboundList gen pid s n r.outboundPayments
  pure s

/-- Handler of `PUT /api/projects/:id` (server.ts lines 434-509): run the
transaction; on success answer `{success:true}`, on any thrown error the
transaction has rolled back and the catch block answers 500 with the error
message. -/
def putProject (gen : Nat → String) (s : DBState) (pid : String) (r : PutReq) :
    Response × DBState :=
  match putTx gen s pid r with
  | Except.ok s' => (Response.success, s')
  | Except.error e => (Response.serverError e, s)

/-- The rows a successful PUT stores for the supplied staff entries: the
entries in order, each falsy id replaced by the next generated one (returns
the final counter as well). -/
def assignStaffRows (gen : Nat → String) (pid : String) :
    Nat → List StaffReq → List StaffRow × Nat
  | n, [] => ([], n)
  | n, r :: rs =>
    let (i, n') := freshChildId gen n r.id
    let (rows, n'') := assignStaffRows gen pid n' rs
    (staffRowOfReq pid i r :: rows, n'')

/-- The rows a successful PUT stores for the supplied billing entries. -/
def assignBillingRows (gen : Nat → String) (pid : String) :
    Nat → List BillingReq → List BillingRow × Nat
  | n, [] => ([], n)
  | n, r :: rs =>
    let (i, n') := freshChildId gen n r.id
    let (rows, n'') := assignBillingRows gen pid n' rs
    (billingRowOfReq pid i r :: rows, n'')

/-- The rows a successful PUT stores for the supplied outbound entries. -/
def assignOutboundRows (gen : Nat → String) (pid : String) :
    Nat → List OutboundReq → List OutboundRow × Nat
  | n, [] => ([], n)
  | n, r :: rs =>
    let (i, n') := freshChildId gen n r.id
    let (rows, n'') := assignOutboundRows gen pid n' rs
    (outboundRowOfReq pid i r :: rows, n'')

/-- A concrete project row with the given id and status and NULL everywhere
else (used by concrete evaluations below). -/
def sampleProject (id status : String) : ProjectRow :=
  ⟨id, status, none, none, none, none, none, none, none, none, none, none,
    none, none, none, none, none, none, none, none, none⟩

/-- A concrete billing row. -/
def sampleBilling (id pid : String) (billed paid : Bool) : BillingRow :=
  ⟨id, pid, some "item", some 1000, none, billed, paid⟩

/-- A concrete outbound row. -/
def sampleOutbound (id pid : String) (paid : Bool) : OutboundRow :=
  ⟨id, pid, some "vendor", some 500, none, paid⟩

/-- A concrete staff row. -/
def sampleStaff (id pid : String) : StaffRow :=
  ⟨id, pid, some "staff", none, none, none, none⟩

/-- A concrete file row. -/
def sampleFile (id pid : String) : FileRow :=
  ⟨id, pid, some "doc.pdf", some "/uploads/doc.pdf"⟩

/-- A concrete user row. -/
def sampleUser (id email : String) : UserRow :=
  ⟨id, email, "pw", "user", "staff", none, true⟩

/-- Every stored project status lies in the seven-value domain. -/
def statusesValid (s : DBState) : Prop :=
  ∀ p ∈ s.projects, p.status ∈ statusDomain

/-- A concrete database: one project `p1` in Billing status with one billed
and one unbilled billing item, plus one row of every other kind. -/
def billingDB : DBState :=
  { users := [sampleUser "u1" "a@example.com"]
    projects := [sampleProject "p1" "請求"]
    staff := [sampleStaff "s1" "p1"]
    billing := [sampleBilling "b1" "p1" true false, sampleBilling "b2" "p1" false false]
    outbound := [sampleOutbound "o1" "p1" false]
    files := [sampleFile "f1" "p1"] }

/-- A concrete id generator for the concrete evaluations. -/
def sampleGen : Nat → String := fun n => "gen" ++ Nat.repr n

/-- A concrete PUT body replacing the children of `p1`: one staff entry
without an id, two billing entries (one without an id), no outbound rows. -/
def samplePutReq : PutReq :=
  { status := "発注", estimateDate := some "2024-01-01", orderDate := none,
    constructionStartDate := none, completionDate := some "2024-03-01", paymentDate := none,
    title := some "t", propertyName := none,
    estimateRemarks := none, orderRemarks := none, constructionRemarks := none,
    billingRemarks := none, paymentRemarks := none, outboundPaymentRemarks := none,
    customerName := some "c", customerZipCode := none, customerAddress := none,
    customerTel := none, customerEmail := none,
    constructionStaff := [⟨none, some "s-new", none, none, none, none⟩],
    billingItems := [⟨some "b9", some "x", some 5, none, true, false⟩,
      ⟨none, some "y", some 6, none, false, false⟩],
    outboundPayments := [] }

/-- A construction-staff entry in a `POST /api/projects` body: the handler
binds `staff.id` directly (no fallback generation on creation). -/
structure PostStaffReq where
  id : String
  name : Option String
  zipCode : Option String
  address : Option String
  tel : Option String
  email : Option String
deriving DecidableEq, Repr

/-- A billing-item entry in a `POST` body: the INSERT binds only id, name,
amount and expectedPaymentDate — the flag columns are the SQL literals 0. -/
structure PostBillingReq where
  id : String
  name : Option String
  amount : Option Int
  expectedPaymentDate : Option String
deriving DecidableEq, Repr

/-- An outbound-payment entry in a `POST` body (isPaid is the literal 0). -/
structure PostOutboundReq where
  id : String
  recipient : Option String
  amount : Option Int
  expectedDate : Option String
deriving DecidableEq, Repr

/-- Body of `POST /api/projects`: the 20 columns the INSERT binds
(`paymentMethod` is not among them) plus the three child collections. -/
structure PostReq where
  id : String
  status : String
  estimateDate : Option String
  orderDate : Option String
  constructionStartDate : Option String
  completionDate : Option String
  paymentDate : Option String
  title : Option String
  propertyName : Option String
  estimateRemarks : Option String
  orderRemarks : Option String
  constructionRemarks : Option String
  billingRemarks : Option String
  paymentRemarks : Option String
  outboundPaymentRemarks : Option String
  customerName : Option String
  customerZipCode : Option String
  customerAddress : Option String
  customerTel : Option String
  customerEmail : Option String
  constructionStaff : List PostStaffReq
  billingItems : List PostBillingReq
  outboundPayments : List PostOutboundReq
deriving DecidableEq, Repr

/-- The project row the creation INSERT stores (`paymentMethod` NULL). -/
def projectRowOfPost (r : PostReq) : ProjectRow :=
  { id := r.id, status := r.status, estimateDate := r.estimateDate, orderDate := r.orderDate,
    constructionStartDate := r.constructionStartDate, completionDate := r.completionDate,
    paymentDate := r.paymentDate, title := r.title, propertyName := r.propertyName,
    estimateRemarks := r.estimateRemarks, orderRemarks := r.orderRemarks,
    paymentMethod := none, paymentRemarks := r.paymentRemarks,
    constructionRemarks := r.constructionRemarks, billingRemarks := r.billingRemarks,
    outboundPaymentRemarks := r.outboundPaymentRemarks, customerName := r.customerName,
    customerZipCode := r.customerZipCode, customerAddress := r.customerAddress,
    customerTel := r.customerTel, customerEmail := r.customerEmail }

/-- `INSERT INTO projects`: fails on a duplicate PRIMARY KEY. -/
def insertProjectRow (s : DBState) (row : ProjectRow) : Except String DBState :=
  if s.projects.any (fun p => p.id == row.id) then
    Except.error "UNIQUE constraint failed: projects.id"
  else
    Except.ok { s with projects := s.projects ++ [row] }

/-- The staff-insert loop of the creation transaction (ids taken verbatim). -/
def postInsertStaffList (pid : String) : DBState → List PostStaffReq → Except String DBState
  | s, [] => Except.ok s
  | s, r :: rs =>
    match insertStaffRow s ⟨r.id, pid, r.name, r.zipCode, r.address, r.tel, r.email⟩ with
    | Except.error e => Except.error e
    | Except.ok s' => postInsertStaffList pid s' rs

/-- The billing-insert loop of the creation transaction (flags stored 0). -/
def postInsertBillingList (pid : String) : DBState → List PostBillingReq → Except String DBState
  | s, [] => Except.ok s
  | s, r :: rs =>
    match insertBillingRow s ⟨r.id, pid, r.name, r.amount, r.expectedPaymentDate, false, false⟩ with
    | Except.error e => Except.error e
    | Except.ok s' => postInsertBillingList pid s' rs

/-- The outbound-insert loop of the creation transaction (isPaid stored 0). -/
def postInsertOutboundList (pid : String) : DBState → List PostOutboundReq → Except String DBState
  | s, [] => Except.ok s
  | s, r :: rs =>
    match insertOutboundRow s ⟨r.id, pid, r.recipient, r.amount, r.expectedDate, false⟩ with
    | Except.error e => Except.error e
    | Except.ok s' => postInsertOutboundList pid s' rs

/-- Body of the `db.transaction` in the POST handler (server.ts lines
327-351): insert the project row, then the staff, billing and outbound
entries in order. -/
def postTx (s : DBState) (r : PostReq) : Except String DBState := do
  let s ← insertProjectRow s (projectRowOfPost r)
  let s ← postInsertStaffList r.id s r.constructionStaff
  let s ← postInsertBillingList r.id s r.billingItems
  let s ← postInsertOutboundList r.id s r.outboundPayments
  pure s

/-- Handler of `POST /api/projects` (server.ts lines 295-362): run the
creation transaction; `{success:true}` on success, 500 with the error
message from the catch block on any constraint violation. -/
def postProject (s : DBState) (r : PostReq) : Response × DBState :=
  match postTx s r with
  | Except.ok s' => (Response.success, s')
  | Except.error e => (Response.serverError e, s)

/-- Handler of `POST /api/projects/:id/files` (server.ts lines 557-586), the
store part: one INSERT into `files` with a generated id; an uncaught
constraint violation (duplicate id, or missing project under enforced
foreign keys) surfaces as a 500. -/
def uploadProjectFile (s : DBState) (pid fileId : String) (name url : Option String) :
    Response × DBState :=
  if s.files.any (fun f => f.id == fileId) then
    (Response.serverError "UNIQUE constraint failed: files.id", s)
  else if !(s.projects.any (fun p => p.id == pid)) then
    (Response.serverError "FOREIGN KEY constraint failed", s)
  else
    (Response.success, { s with files := s.files ++ [⟨fileId, pid, name, url⟩] })

/-- Handler of `DELETE /api/files/:id` (server.ts lines 588-596): delete the
registry row when the lookup finds it; always `{success:true}`. -/
def deleteFile (s : DBState) (fid : String) : Response × DBState :=
  match s.files.find? (fun f => f.id == fid) with
  | some _ => (Response.success, { s with files := s.files.filter (fun f => !(f.id == fid)) })
  | none => (Response.success, s)

/-- Body of `PUT /api/users/:id`; `none` = field absent from the JSON. -/
structure UserPatchReq where
  email : Option String := none
  password : Option String := none
  name : Option String := none
  role : Option String := none
  remarks : Option String := none
  isActive : Option Bool := none
deriving DecidableEq, Repr

/-- The column assignments the dynamic user UPDATE applies to one row. -/
def applyUserPatch (r : UserPatchReq) (u : UserRow) : UserRow :=
  let u := match r.email with | some v => { u with email := v } | none => u
  let u := match r.password with | some v => { u with password := v } | none => u
  let u := match r.name with | some v => { u with name := v } | none => u
  let u := match r.role with | some v => { u with role := v } | none => u
  let u := match r.remarks with | some v => { u with remarks := some v } | none => u
  let u := match r.isActive with | some v => { u with isActive := v } | none => u
  u

/-- Handler of `PUT /api/users/:id` (server.ts lines 617-634): one dynamic
UPDATE when at least one field is supplied (skipped otherwise); setting the
email to one held by a different row hits the UNIQUE constraint, which is
uncaught and surfaces as a 500 with the row unchanged. -/
def updateUser (s : DBState) (uid : String) (r : UserPatchReq) : Response × DBState :=
  if r.email.isSome || r.password.isSome || r.name.isSome || r.role.isSome
      || r.remarks.isSome || r.isActive.isSome then
    match r.email with
    | some v =>
      if s.users.any (fun u => !(u.id == uid) && u.email == v) then
        (Response.serverError "UNIQUE constraint failed: users.email", s)
      else
        (Response.success,
          { s with users := s.users.map (fun u => if u.id == uid then applyUserPatch r u else u) })
    | none =>
      (Response.success,
        { s with users := s.users.map (fun u => if u.id == uid then applyUserPatch r u else u) })
  else (Response.success, s)

/-- Handler of `DELETE /api/users/:id` (server.ts lines 636-640). -/
def deleteUser (s : DBState) (uid : String) : Response × DBState :=
  (Response.success, { s with users := s.users.filter (fun u => !(u.id == uid)) })

/-! Generic list lemmas about the SQL primitives (UPDATE as a guarded map,
DELETE as a filter, row lookup as `find?`). -/

theorem find?_map_if {α : Type} (q : α → Bool) (g : α → α)
    (hg : ∀ x, q x = true → q (g x) = true) (l : List α) :
    (l.map (fun x => if q x then g x else x)).find? q = (l.find? q).map g := by
  induction l with
  | nil => rfl
  | cons a t ih =>
    by_cases h : q a = true
    · rw [List.map_cons, if_pos h, List.find?_cons_of_pos _ (hg a h), List.find?_cons_of_pos _ h]
      rfl
    · rw [List.map_cons, if_neg h, List.find?_cons_of_neg _ h, List.find?_cons_of_neg _ h, ih]

theorem filterNot_filter {α : Type} (q : α → Bool) (l : List α) :
    (l.filter (fun x => !(q x))).filter q = [] := by
  induction l with
  | nil => rfl
  | cons a t ih =>
    by_cases h : q a = true
    · simp [List.filter_cons, h, ih]
    · simp [List.filter_cons, h, ih]

theorem find?_filterNot {α : Type} (q : α → Bool) (l : List α) :
    (l.filter (fun x => !(q x))).find? q = none := by
  rw [List.find?_eq_none]
  intro x hx
  rcases List.mem_filter.mp hx with ⟨_, h⟩
  simpa using h

theorem any_of_find?_some {α : Type} {q : α → Bool} {l : List α} {a : α}
    (h : l.find? q = some a) : l.any q = true :=
  List.any_eq_true.mpr ⟨a, List.mem_of_find?_eq_some h, List.find?_some h⟩

theorem map_if_eq_self {α : Type} (q : α → Bool) (g : α → α) (l : List α)
    (h : ∀ x ∈ l, ¬ q x = true) :
    l.map (fun x => if q x then g x else x) = l := by
  conv_rhs => rw [← List.map_id l]
  apply List.map_congr_left
  intro a ha
  simp [h a ha]

/-! Frame lemmas: which tables each handler leaves untouched. -/

theorem patchBillingItems_projects (s : DBState) (iid : String) (r : BillingPatchReq) :
    ((patchBillingItems s iid r).2).projects = s.projects := by
  rcases r with ⟨ib, ip⟩
  cases ib <;> cases ip <;> rfl

theorem patchOutboundPayments_projects (s : DBState) (iid : String) (r : OutboundPatchReq) :
    ((patchOutboundPayments s iid r).2).projects = s.projects := by
  rcases r with ⟨ip⟩
  cases ip <;> rfl

theorem createUser_projects (s : DBState) (r : UserReq) :
    ((createUser s r).2).projects = s.projects := by
  unfold createUser
  split <;> rfl

/-- C6: for every stored project and every target status, the status-set
operation (`PATCH /api/projects/:id` with a status field) succeeds and
unconditionally stores the target status, with no adjacency or ordering
validation on either the current or the target value. -/
theorem advanceUnrestricted (s : DBState) (pid target : String) (p : ProjectRow)
    (hp : findProject s pid = some p) :
    (patchProject s pid { status := some target }).1 = Response.success
    ∧ findProject (patchProject s pid { status := some target }).2 pid
        = some { p with status := target } := by
  refine ⟨rfl, ?_⟩
  show findProject (updateProjectCol s pid (fun q => { q with status := target })) pid = _
  unfold findProject at hp
  unfold findProject updateProjectCol
  rw [find?_map_if _ _ (fun x hx => by simpa using hx), hp]
  rfl

/-- Witness for C6: in the concrete database, setting project p1 from
Billing straight to the Payment-Out status succeeds and stores it. -/
theorem advanceUnrestricted_witness :
    (patchProject billingDB "p1" { status := some "支払い" }).1 = Response.success
    ∧ findProject (patchProject billingDB "p1" { status := some "支払い" }).2 "p1"
        = some { sampleProject "p1" "請求" with status := "支払い" } :=
  advanceUnrestricted billingDB "p1" "支払い" (sampleProject "p1" "請求") rfl

/-- C9 (code bug): a PATCH addressed to a project id that is not stored is
answered `{success:true}` with the store unchanged — the handler performs no
existence check and reports no not-found condition. -/
theorem patchMissingProjectSilentSuccess :
    findProject billingDB "missing" = none
    ∧ patchProject billingDB "missing" { status := some "発注" }
        = (Response.success, billingDB) := by
  refine ⟨rfl, ?_⟩
  show (Response.success, updateProjectCol billingDB "missing" _) = _
  unfold updateProjectCol
  rw [map_if_eq_self _ _ _ (by decide)]

/-- Counterexample for C4: billing item b1 has `isBilled = true`, and a
PATCH supplying `isBilled: false` stores `false` — an API operation does
change a flag from true back to false. -/
theorem billedFlagUnset_cex :
    (findBillingItem billingDB "b1").map BillingRow.isBilled = some true
    ∧ (findBillingItem ((patchBillingItems billingDB "b1" { isBilled := some false }).2)
        "b1").map BillingRow.isBilled = some false := by
  exact ⟨rfl, rfl⟩

/-- C4 (amended): the dedicated partial updates store each progress flag as
exactly the boolean supplied in the request body — so they can set a flag to
true, but a request supplying false equally resets it. -/
theorem flagsSetToSuppliedValue (s : DBState) (iid : String) (v w : Bool) :
    (findBillingItem ((patchBillingItems s iid { isBilled := some v, isPaid := some w }).2)
        iid).map (fun b => (b.isBilled, b.isPaid))
      = (findBillingItem s iid).map (fun _ => (v, w))
    ∧ (findOutboundPayment ((patchOutboundPayments s iid { isPaid := some w }).2)
        iid).map OutboundRow.isPaid
      = (findOutboundPayment s iid).map (fun _ => w) := by
  constructor
  · show Option.map (fun b => (b.isBilled, b.isPaid))
      (List.find? (fun b => b.id == iid)
        ((s.billing.map (fun x => if x.id == iid then { x with isBilled := v } else x)).map
          (fun x => if x.id == iid then { x with isPaid := w } else x))) = _
    rw [find?_map_if _ _ (fun x hx => by simpa using hx),
      find?_map_if _ _ (fun x hx => by simpa using hx)]
    unfold findBillingItem
    cases s.billing.find? (fun b => b.id == iid) <;> rfl
  · show Option.map OutboundRow.isPaid
      (List.find? (fun o => o.id == iid)
        (s.outbound.map (fun x => if x.id == iid then { x with isPaid := w } else x))) = _
    rw [find?_map_if _ _ (fun x hx => by simpa using hx)]
    unfold findOutboundPayment
    cases s.outbound.find? (fun o => o.id == iid) <;> rfl

/-- C8: creating a user whose email is already stored fails, is surfaced as
a 400 conflict rather than a fatal error, and leaves the user table (in
particular the existing record) exactly as it was. -/
theorem duplicateEmailConflict (s : DBState) (r : UserReq)
    (h : ∃ u ∈ s.users, u.email = r.email) :
    createUser s r = (Response.badRequest "Email already exists", s) := by
  obtain ⟨u, hu, he⟩ := h
  unfold createUser
  rw [if_pos]
  exact List.any_eq_true.mpr ⟨u, hu, by simp [he]⟩

/-- Witness for C8: adding a second user with the already-stored email
a@example.com is rejected with the conflict message and no state change. -/
theorem duplicateEmailConflict_witness :
    createUser billingDB ⟨"u2", "a@example.com", "pw2", "other", "staff", none⟩
      = (Response.badRequest "Email already exists", billingDB) :=
  duplicateEmailConflict billingDB ⟨"u2", "a@example.com", "pw2", "other", "staff", none⟩
    ⟨sampleUser "u1" "a@example.com", by decide, rfl⟩

/-- C5: deleting a stored project removes every construction-staff,
billing-item, outbound-payment and file row of that project (cascade), and a
subsequent GET of the same id reports not-found. -/
theorem deleteCascades (s : DBState) (pid : String) (p : ProjectRow)
    (hp : findProject s pid = some p) :
    staffOf (deleteProject s pid).2 pid = []
    ∧ billingOf (deleteProject s pid).2 pid = []
    ∧ outboundOf (deleteProject s pid).2 pid = []
    ∧ filesOf (deleteProject s pid).2 pid = []
    ∧ getProject (deleteProject s pid).2 pid = GetProjectResult.notFound := by
  have hany : s.projects.any (fun q => q.id == pid) = true := by
    unfold findProject at hp
    exact any_of_find?_some hp
  unfold deleteProject
  rw [if_pos hany]
  refine ⟨filterNot_filter _ _, filterNot_filter _ _, filterNot_filter _ _,
    filterNot_filter _ _, ?_⟩
  unfold getProject findProject
  rw [find?_filterNot]

/-- Witness for C5: deleting the concrete project p1 empties all of its
child collections and a GET of p1 reports not-found. -/
theorem deleteCascades_witness :
    staffOf (deleteProject billingDB "p1").2 "p1" = []
    ∧ billingOf (deleteProject billingDB "p1").2 "p1" = []
    ∧ outboundOf (deleteProject billingDB "p1").2 "p1" = []
    ∧ filesOf (deleteProject billingDB "p1").2 "p1" = []
    ∧ getProject (deleteProject billingDB "p1").2 "p1" = GetProjectResult.notFound :=
  deleteCascades billingDB "p1" (sampleProject "p1" "請求") rfl

/-- C1: marking a billing item billed through the billing-update flow when
the project is in Billing status and every other item of the project is
already billed stores the Payment-In status on the project; when the project
is in any other status, any billing-item update leaves the status as it
was. -/
theorem autoAdvanceOnFullBilling (s : DBState) (pid itemId : String) (p : ProjectRow)
    (hp : findProject s pid = some p) :
    (p.status = statusBilling →
      (∀ b ∈ billingOf s pid, b.id ≠ itemId → b.isBilled = true) →
      (findProject (handleBillingItemUpdate s pid itemId { isBilled := some true }) pid).map
          ProjectRow.status = some statusPaymentIn)
    ∧ (p.status ≠ statusBilling → ∀ u : BillingPatchReq,
      (findProject (handleBillingItemUpdate s pid itemId u) pid).map
          ProjectRow.status = some p.status) := by
  constructor
  · intro hst hlast
    have h1 : findProject ((patchBillingItems s itemId { isBilled := some true }).2) pid
        = some p := hp
    have hall : (billingOf ((patchBillingItems s itemId { isBilled := some true }).2) pid).all
        (fun b => b.isBilled) = true := by
      rw [List.all_eq_true]
      intro y hy
      show ((fun b => b.isBilled) y) = true
      have hy' : y ∈ (s.billing.map
          (fun x => if x.id == itemId then { x with isBilled := true } else x)).filter
          (fun b => b.projectId == pid) := hy
      rcases List.mem_filter.mp hy' with ⟨hymem, hypid⟩
      rcases List.mem_map.mp hymem with ⟨b, hb, rfl⟩
      by_cases hid : (b.id == itemId) = true
      · simp [hid]
      · have hbpid : (b.projectId == pid) = true := by simpa [hid] using hypid
        have hbmem : b ∈ billingOf s pid := List.mem_filter.mpr ⟨hb, hbpid⟩
        have hbid : b.id ≠ itemId := fun hc => hid (by simp [hc])
        simp [hid, hlast b hbmem hbid]
    simp only [handleBillingItemUpdate, h1]
    rw [hall]
    have hbeq : (p.status == statusBilling) = true := by simp [hst]
    rw [hbeq]
    simp only [Option.isSome_some, if_pos, Bool.and_self, if_true]
    show (findProject (handleStatusUpdate
        ((patchBillingItems s itemId { isBilled := some true }).2) pid statusPaymentIn)
        pid).map ProjectRow.status = some statusPaymentIn
    show (findProject (updateProjectCol
        ((patchBillingItems s itemId { isBilled := some true }).2) pid
        (fun q => { q with status := statusPaymentIn })) pid).map ProjectRow.status = _
    unfold findProject at h1 ⊢
    unfold updateProjectCol
    rw [find?_map_if _ _ (fun x hx => by simpa using hx), h1]
    rfl
  · intro hne u
    have h1 : findProject ((patchBillingItems s itemId u).2) pid = some p := by
      unfold findProject
      rw [patchBillingItems_projects]
      exact hp
    simp only [handleBillingItemUpdate, h1]
    have hbeq : (p.status == statusBilling) = false := by
      simpa using hne
    rw [hbeq]
    simp [h1]

/-- Witness for C1: in the concrete database (p1 in Billing, b1 billed, b2
unbilled), marking b2 billed stores Payment-In on p1; in the same database
with p1 in Estimate status instead, the same update leaves the status at
Estimate. -/
theorem autoAdvanceOnFullBilling_witness :
    (findProject (handleBillingItemUpdate billingDB "p1" "b2" { isBilled := some true })
        "p1").map ProjectRow.status = some statusPaymentIn
    ∧ (findProject (handleBillingItemUpdate
          { billingDB with projects := [sampleProject "p1" "見積"] } "p1" "b2"
          { isBilled := some true }) "p1").map ProjectRow.status = some "見積" :=
  ⟨(autoAdvanceOnFullBilling billingDB "p1" "b2" (sampleProject "p1" "請求") rfl).1
      rfl (by decide),
    (autoAdvanceOnFullBilling { billingDB with projects := [sampleProject "p1" "見積"] }
      "p1" "b2" (sampleProject "p1" "見積") rfl).2 (by decide) { isBilled := some true }⟩

/-- Characterization of a successful staff-insert loop: it appends exactly
the id-assigned rows, returns the advanced counter, and touches no other
table. -/
theorem insertStaffList_ok (gen : Nat → String) (pid : String) :
    ∀ (rs : List StaffReq) (s : DBState) (n : Nat) (out : DBState × Nat),
      insertStaffList gen pid s n rs = Except.ok out →
        out.1.staff = s.staff ++ (assignStaffRows gen pid n rs).1
        ∧ out.2 = (assignStaffRows gen pid n rs).2
        ∧ out.1.users = s.users ∧ out.1.projects = s.projects
        ∧ out.1.billing = s.billing ∧ out.1.outbound = s.outbound
        ∧ out.1.files = s.files := by
  intro rs
  induction rs with
  | nil =>
    intro s n out h
    simp only [insertStaffList] at h
    cases h
    simp [assignStaffRows]
  | cons r rs ih =>
    intro s n out h
    simp only [insertStaffList] at h
    rcases hf : freshChildId gen n r.id with ⟨i, n'⟩
    rw [hf] at h
    simp only [] at h
    cases hins : insertStaffRow s (staffRowOfReq pid i r) with
    | error e =>
      rw [hins] at h
      simp at h
    | ok s1 =>
      rw [hins] at h
      simp only [] at h
      have hs1 : s1 = { s with staff := s.staff ++ [staffRowOfReq pid i r] } := by
        unfold insertStaffRow at hins
        split at hins
        · simp at hins
        · split at hins
          · simp at hins
          · cases hins
            rfl
      obtain ⟨e1, e2, e3, e4, e5, e6, e7⟩ := ih s1 n' out h
      subst hs1
      rcases ha : assignStaffRows gen pid n' rs with ⟨rows, n2⟩
      rw [ha] at e1 e2
      simp only [] at e1 e2 e3 e4 e5 e6 e7
      simp only [assignStaffRows, hf, ha]
      refine ⟨?_, e2, e3, e4, e5, e6, e7⟩
      rw [e1]
      simp

/-- Characterization of a successful billing-insert loop. -/
theorem insertBillingList_ok (gen : Nat → String) (pid : String) :
    ∀ (rs : List BillingReq) (s : DBState) (n : Nat) (out : DBState × Nat),
      insertBillingList gen pid s n rs = Except.ok out →
        out.1.billing = s.billing ++ (assignBillingRows gen pid n rs).1
        ∧ out.2 = (assignBillingRows gen pid n rs).2
        ∧ out.1.users = s.users ∧ out.1.projects = s.projects
        ∧ out.1.staff = s.staff ∧ out.1.outbound = s.outbound
        ∧ out.1.files = s.files := by
  intro rs
  induction rs with
  | nil =>
    intro s n out h
    simp only [insertBillingList] at h
    cases h
    simp [assignBillingRows]
  | cons r rs ih =>
    intro s n out h
    simp only [insertBillingList] at h
    rcases hf : freshChildId gen n r.id with ⟨i, n'⟩
    rw [hf] at h
    simp only [] at h
    cases hins : insertBillingRow s (billingRowOfReq pid i r) with
    | error e =>
      rw [hins] at h
      simp at h
    | ok s1 =>
      rw [hins] at h
      simp only [] at h
      have hs1 : s1 = { s with billing := s.billing ++ [billingRowOfReq pid i r] } := by
        unfold insertBillingRow at hins
        split at hins
        · simp at hins
        · split at hins
          · simp at hins
          · cases hins
            rfl
      obtain ⟨e1, e2, e3, e4, e5, e6, e7⟩ := ih s1 n' out h
      subst hs1
      rcases ha : assignBillingRows gen pid n' rs with ⟨rows, n2⟩
      rw [ha] at e1 e2
      simp only [] at e1 e2 e3 e4 e5 e6 e7
      simp only [assignBillingRows, hf, ha]
      refine ⟨?_, e2, e3, e4, e5, e6, e7⟩
      rw [e1]
      simp

/-- Characterization of a successful outbound-insert loop. -/
theorem insertOutboundList_ok (gen : Nat → String) (pid : String) :
    ∀ (rs : List OutboundReq) (s : DBState) (n : Nat) (out : DBState × Nat),
      insertOutboundList gen pid s n rs = Except.ok out →
        out.1.outbound = s.outbound ++ (assignOutboundRows gen pid n rs).1
        ∧ out.2 = (assignOutboundRows gen pid n rs).2
        ∧ out.1.users = s.users ∧ out.1.projects = s.projects
        ∧ out.1.staff = s.staff ∧ out.1.billing = s.billing
        ∧ out.1.files = s.files := by
  intro rs
  induction rs with
  | nil =>
    intro s n out h
    simp only [insertOutboundList] at h
    cases h
    simp [assignOutboundRows]
  | cons r rs ih =>
    intro s n out h
    simp only [insertOutboundList] at h
    rcases hf : freshChildId gen n r.id with ⟨i, n'⟩
    rw [hf] at h
    simp only [] at h
    cases hins : insertOutboundRow s (outboundRowOfReq pid i r) with
    | error e =>
      rw [hins] at h
      simp at h
    | ok s1 =>
      rw [hins] at h
      simp only [] at h
      have hs1 : s1 = { s with outbound := s.outbound ++ [outboundRowOfReq pid i r] } := by
        unfold insertOutboundRow at hins
        split at hins
        · simp at hins
        · split at hins
          · simp at hins
          · cases hins
            rfl
      obtain ⟨e1, e2, e3, e4, e5, e6, e7⟩ := ih s1 n' out h
      subst hs1
      rcases ha : assignOutboundRows gen pid n' rs with ⟨rows, n2⟩
      rw [ha] at e1 e2
      simp only [] at e1 e2 e3 e4 e5 e6 e7
      simp only [assignOutboundRows, hf, ha]
      refine ⟨?_, e2, e3, e4, e5, e6, e7⟩
      rw [e1]
      simp

/-- Characterization of a successful PUT transaction: the project row is
field-replaced in place, each child table keeps exactly the rows of other
projects plus the id-assigned supplied rows, and users/files are untouched. -/
theorem putTx_ok (gen : Nat → String) (s : DBState) (pid : String) (r : PutReq) (s' : DBState)
    (h : putTx gen s pid r = Except.ok s') :
    s'.users = s.users
    ∧ s'.projects = s.projects.map (fun p => if p.id == pid then applyPutFields r p else p)
    ∧ s'.files = s.files
    ∧ s'.staff = s.staff.filter (fun x => !(x.projectId == pid))
        ++ (assignStaffRows gen pid 0 r.constructionStaff).1
    ∧ s'.billing = s.billing.filter (fun x => !(x.projectId == pid))
        ++ (assignBillingRows gen pid (assignStaffRows gen pid 0 r.constructionStaff).2
            r.billingItems).1
    ∧ s'.outbound = s.outbound.filter (fun x => !(x.projectId == pid))
        ++ (assignOutboundRows gen pid
            (assignBillingRows gen pid (assignStaffRows gen pid 0 r.constructionStaff).2
              r.billingItems).2 r.outboundPayments).1 := by
  unfold putTx at h
  simp only [bind, Except.bind] at h
  cases h1 : insertStaffList gen pid (deleteStaffOf (updateProject s pid r) pid) 0
      r.constructionStaff with
  | error e =>
    rw [h1] at h
    simp at h
  | ok o1 =>
    rw [h1] at h
    rcases o1 with ⟨sA, nA⟩
    simp only [] at h
    cases h2 : insertBillingList gen pid (deleteBillingOf sA pid) nA r.billingItems with
    | error e =>
      rw [h2] at h
      simp at h
    | ok o2 =>
      rw [h2] at h
      rcases o2 with ⟨sB, nB⟩
      simp only [] at h
      cases h3 : insertOutboundList gen pid (deleteOutboundOf sB pid) nB r.outboundPayments with
      | error e =>
        rw [h3] at h
        simp at h
      | ok o3 =>
        rw [h3] at h
        rcases o3 with ⟨sC, nC⟩
        simp only [pure, Except.pure] at h
        cases h
        obtain ⟨a1, a2, a3, a4, a5, a6, a7⟩ := insertStaffList_ok gen pid _ _ _ _ h1
        obtain ⟨b1, b2, b3, b4, b5, b6, b7⟩ := insertBillingList_ok gen pid _ _ _ _ h2
        obtain ⟨c1, c2, c3, c4, c5, c6, c7⟩ := insertOutboundList_ok gen pid _ _ _ _ h3
        simp only [deleteStaffOf, deleteBillingOf, deleteOutboundOf,
          updateProject] at a1 a2 a3 a4 a5 a6 a7
        simp only [deleteStaffOf, deleteBillingOf, deleteOutboundOf,
          updateProject] at b1 b2 b3 b4 b5 b6 b7
        simp only [deleteStaffOf, deleteBillingOf, deleteOutboundOf,
          updateProject] at c1 c2 c3 c4 c5 c6 c7
        refine ⟨?_, ?_, ?_, ?_, ?_, ?_⟩
        · rw [c3, b3, a3]
        · rw [c4, b4, a4]
        · rw [c7, b7, a7]
        · rw [c5, b5, a1]
        · rw [c6, b1, a5, a2]
        · rw [c1, b6, a6, b2, a2]

theorem assignStaffRows_projectId (gen : Nat → String) (pid : String) :
    ∀ (rs : List StaffReq) (n : Nat), ∀ row ∈ (assignStaffRows gen pid n rs).1,
      (row.projectId == pid) = true := by
  intro rs
  induction rs with
  | nil =>
    intro n row hrow
    simp [assignStaffRows] at hrow
  | cons r rs ih =>
    intro n row hrow
    rcases hf : freshChildId gen n r.id with ⟨i, n'⟩
    rcases ha : assignStaffRows gen pid n' rs with ⟨rows, n2⟩
    simp only [assignStaffRows, hf, ha] at hrow
    rcases List.mem_cons.mp hrow with hc | hc
    · subst hc
      simp [staffRowOfReq]
    · have hi := ih n' row
      rw [ha] at hi
      exact hi (by simpa using hc)

theorem assignBillingRows_projectId (gen : Nat → String) (pid : String) :
    ∀ (rs : List BillingReq) (n : Nat), ∀ row ∈ (assignBillingRows gen pid n rs).1,
      (row.projectId == pid) = true := by
  intro rs
  induction rs with
  | nil =>
    intro n row hrow
    simp [assignBillingRows] at hrow
  | cons r rs ih =>
    intro n row hrow
    rcases hf : freshChildId gen n r.id with ⟨i, n'⟩
    rcases ha : assignBillingRows gen pid n' rs with ⟨rows, n2⟩
    simp only [assignBillingRows, hf, ha] at hrow
    rcases List.mem_cons.mp hrow with hc | hc
    · subst hc
      simp [billingRowOfReq]
    · have hi := ih n' row
      rw [ha] at hi
      exact hi (by simpa using hc)

theorem assignOutboundRows_projectId (gen : Nat → String) (pid : String) :
    ∀ (rs : List OutboundReq) (n : Nat), ∀ row ∈ (assignOutboundRows gen pid n rs).1,
      (row.projectId == pid) = true := by
  intro rs
  induction rs with
  | nil =>
    intro n row hrow
    simp [assignOutboundRows] at hrow
  | cons r rs ih =>
    intro n row hrow
    rcases hf : freshChildId gen n r.id with ⟨i, n'⟩
    rcases ha : assignOutboundRows gen pid n' rs with ⟨rows, n2⟩
    simp only [assignOutboundRows, hf, ha] at hrow
    rcases List.mem_cons.mp hrow with hc | hc
    · subst hc
      simp [outboundRowOfReq]
    · have hi := ih n' row
      rw [ha] at hi
      exact hi (by simpa using hc)

/-- C2: when a full-replace PUT completes successfully, the stored children
of the project are exactly the supplied sequences, rows lacking an id having
received a generated one, with no leftover rows from any prior version. -/
theorem putReplacesChildren (gen : Nat → String) (s : DBState) (pid : String) (r : PutReq)
    (s' : DBState) (h : putProject gen s pid r = (Response.success, s')) :
    staffOf s' pid = (assignStaffRows gen pid 0 r.constructionStaff).1
    ∧ billingOf s' pid = (assignBillingRows gen pid
        (assignStaffRows gen pid 0 r.constructionStaff).2 r.billingItems).1
    ∧ outboundOf s' pid = (assignOutboundRows gen pid
        (assignBillingRows gen pid (assignStaffRows gen pid 0 r.constructionStaff).2
          r.billingItems).2 r.outboundPayments).1 := by
  unfold putProject at h
  cases htx : putTx gen s pid r with
  | error e =>
    rw [htx] at h
    simp at h
  | ok s2 =>
    rw [htx] at h
    cases h
    obtain ⟨_, _, _, h4, h5, h6⟩ := putTx_ok gen s pid r s' htx
    refine ⟨?_, ?_, ?_⟩
    · unfold staffOf
      rw [h4, List.filter_append, filterNot_filter,
        List.filter_eq_self.mpr (assignStaffRows_projectId gen pid _ 0), List.nil_append]
    · unfold billingOf
      rw [h5, List.filter_append, filterNot_filter,
        List.filter_eq_self.mpr (assignBillingRows_projectId gen pid _ _), List.nil_append]
    · unfold outboundOf
      rw [h6, List.filter_append, filterNot_filter,
        List.filter_eq_self.mpr (assignOutboundRows_projectId gen pid _ _), List.nil_append]

/-- Witness for C2: replacing the children of p1 with one id-less staff
entry and two billing entries stores exactly those rows. -/
theorem putReplacesChildren_witness :
    staffOf (putProject sampleGen billingDB "p1" samplePutReq).2 "p1"
        = (assignStaffRows sampleGen "p1" 0 samplePutReq.constructionStaff).1
    ∧ billingOf (putProject sampleGen billingDB "p1" samplePutReq).2 "p1"
        = (assignBillingRows sampleGen "p1"
            (assignStaffRows sampleGen "p1" 0 samplePutReq.constructionStaff).2
            samplePutReq.billingItems).1
    ∧ outboundOf (putProject sampleGen billingDB "p1" samplePutReq).2 "p1"
        = (assignOutboundRows sampleGen "p1"
            (assignBillingRows sampleGen "p1"
              (assignStaffRows sampleGen "p1" 0 samplePutReq.constructionStaff).2
              samplePutReq.billingItems).2 samplePutReq.outboundPayments).1 :=
  putReplacesChildren sampleGen billingDB "p1" samplePutReq
    (putProject sampleGen billingDB "p1" samplePutReq).2 rfl

/-- C3: the PUT handler either succeeds, or answers a 500 server error while
the store is left exactly as it was before the request — any failure of any
step inside the transaction rolls the whole replacement back with no partial
application observable. -/
theorem putFailureRollsBack (gen : Nat → String) (s : DBState) (pid : String) (r : PutReq) :
    (putProject gen s pid r).1 = Response.success
    ∨ ∃ msg, putProject gen s pid r = (Response.serverError msg, s) := by
  unfold putProject
  cases putTx gen s pid r with
  | ok s2 => exact Or.inl rfl
  | error e => exact Or.inr ⟨e, rfl⟩

/-- C10: a PUT addressed to a project id that is not stored never creates a
project row — the stored set of projects is unchanged whatever the outcome
(the UPDATE matches nothing, and any child insert fails the transaction). -/
theorem putNeverUpserts (gen : Nat → String) (s : DBState) (pid : String) (r : PutReq)
    (h : findProject s pid = none) :
    ((putProject gen s pid r).2).projects = s.projects := by
  unfold putProject
  cases htx : putTx gen s pid r with
  | error e => rfl
  | ok s2 =>
    obtain ⟨_, h2, _⟩ := putTx_ok gen s pid r s2 htx
    show s2.projects = s.projects
    rw [h2]
    apply map_if_eq_self
    unfold findProject at h
    exact List.find?_eq_none.mp h

/-- Witness for C10: a PUT against the unknown id nope leaves the concrete
database's project table unchanged. -/
theorem putNeverUpserts_witness :
    ((putProject sampleGen billingDB "nope" samplePutReq).2).projects = billingDB.projects :=
  putNeverUpserts sampleGen billingDB "nope" samplePutReq rfl

theorem postInsertStaffList_projects (pid : String) :
    ∀ (rs : List PostStaffReq) (s s' : DBState),
      postInsertStaffList pid s rs = Except.ok s' → s'.projects = s.projects := by
  intro rs
  induction rs with
  | nil =>
    intro s s' h
    simp only [postInsertStaffList] at h
    cases h
    rfl
  | cons r rs ih =>
    intro s s' h
    simp only [postInsertStaffList] at h
    cases hins : insertStaffRow s ⟨r.id, pid, r.name, r.zipCode, r.address, r.tel, r.email⟩ with
    | error e =>
      rw [hins] at h
      simp at h
    | ok s1 =>
      rw [hins] at h
      have hp : s1.projects = s.projects := by
        unfold insertStaffRow at hins
        split at hins
        · simp at hins
        · split at hins
          · simp at hins
          · cases hins
            rfl
      rw [ih s1 s' h, hp]

theorem postInsertBillingList_projects (pid : String) :
    ∀ (rs : List PostBillingReq) (s s' : DBState),
      postInsertBillingList pid s rs = Except.ok s' → s'.projects = s.projects := by
  intro rs
  induction rs with
  | nil =>
    intro s s' h
    simp only [postInsertBillingList] at h
    cases h
    rfl
  | cons r rs ih =>
    intro s s' h
    simp only [postInsertBillingList] at h
    cases hins : insertBillingRow s
        ⟨r.id, pid, r.name, r.amount, r.expectedPaymentDate, false, false⟩ with
    | error e =>
      rw [hins] at h
      simp at h
    | ok s1 =>
      rw [hins] at h
      have hp : s1.projects = s.projects := by
        unfold insertBillingRow at hins
        split at hins
        · simp at hins
        · split at hins
          · simp at hins
          · cases hins
            rfl
      rw [ih s1 s' h, hp]

theorem postInsertOutboundList_projects (pid : String) :
    ∀ (rs : List PostOutboundReq) (s s' : DBState),
      postInsertOutboundList pid s rs = Except.ok s' → s'.projects = s.projects := by
  intro rs
  induction rs with
  | nil =>
    intro s s' h
    simp only [postInsertOutboundList] at h
    cases h
    rfl
  | cons r rs ih =>
    intro s s' h
    simp only [postInsertOutboundList] at h
    cases hins : insertOutboundRow s ⟨r.id, pid, r.recipient, r.amount, r.expectedDate, false⟩ with
    | error e =>
      rw [hins] at h
      simp at h
    | ok s1 =>
      rw [hins] at h
      have hp : s1.projects = s.projects := by
        unfold insertOutboundRow at hins
        split at hins
        · simp at hins
        · split at hins
          · simp at hins
          · cases hins
            rfl
      rw [ih s1 s' h, hp]

/-- A successful creation transaction appends exactly the new project row to
the project table. -/
theorem postTx_ok_projects (s : DBState) (r : PostReq) (s' : DBState)
    (h : postTx s r = Except.ok s') :
    s'.projects = s.projects ++ [projectRowOfPost r] := by
  unfold postTx at h
  simp only [bind, Except.bind] at h
  cases h1 : insertProjectRow s (projectRowOfPost r) with
  | error e =>
    rw [h1] at h
    simp at h
  | ok s1 =>
    rw [h1] at h
    simp only [] at h
    cases h2 : postInsertStaffList r.id s1 r.constructionStaff with
    | error e =>
      rw [h2] at h
      simp at h
    | ok s2 =>
      rw [h2] at h
      simp only [] at h
      cases h3 : postInsertBillingList r.id s2 r.billingItems with
      | error e =>
        rw [h3] at h
        simp at h
      | ok s3 =>
        rw [h3] at h
        simp only [] at h
        cases h4 : postInsertOutboundList r.id s3 r.outboundPayments with
        | error e =>
          rw [h4] at h
          simp at h
        | ok s4 =>
          rw [h4] at h
          simp only [pure, Except.pure] at h
          cases h
          have hins : s1.projects = s.projects ++ [projectRowOfPost r] := by
            unfold insertProjectRow at h1
            split at h1
            · simp at h1
            · cases h1
              rfl
          rw [postInsertOutboundList_projects r.id r.outboundPayments s3 s' h4,
            postInsertBillingList_projects r.id r.billingItems s2 s3 h3,
            postInsertStaffList_projects r.id r.constructionStaff s1 s2 h2, hins]

theorem uploadProjectFile_projects (s : DBState) (pid fileId : String)
    (name url : Option String) :
    ((uploadProjectFile s pid fileId name url).2).projects = s.projects := by
  unfold uploadProjectFile
  split
  · rfl
  · split
    · rfl
    · rfl

theorem deleteFile_projects (s : DBState) (fid : String) :
    ((deleteFile s fid).2).projects = s.projects := by
  unfold deleteFile
  split
  · rfl
  · rfl

theorem updateUser_projects (s : DBState) (uid : String) (r : UserPatchReq) :
    ((updateUser s uid r).2).projects = s.projects := by
  unfold updateUser
  split
  · split
    · split
      · rfl
      · rfl
    · rfl
  · rfl

theorem statusesValid_updateProjectCol (s : DBState) (pid : String)
    (f : ProjectRow → ProjectRow) (hs : statusesValid s)
    (hf : ∀ p, p.status ∈ statusDomain → (f p).status ∈ statusDomain) :
    statusesValid (updateProjectCol s pid f) := by
  intro p hp
  rcases List.mem_map.mp hp with ⟨q, hq, rfl⟩
  by_cases h : (q.id == pid) = true
  · rw [if_pos h]
    exact hf q (hs q hq)
  · rw [if_neg h]
    exact hs q hq

/-- Counterexample for C7: the status-patch handler stores the request's
status string verbatim, so a request carrying the string INVALID stores a
status outside the seven-value domain. -/
theorem statusOutsideDomain_cex :
    (findProject (patchProject billingDB "p1" { status := some "INVALID" }).2 "p1").map
        ProjectRow.status = some "INVALID"
    ∧ ¬ "INVALID" ∈ statusDomain := by
  exact ⟨rfl, by decide⟩

/-- C7 (amended): the API itself validates nothing, so the domain invariant
holds only conditionally — if every status string supplied by a request lies
in the seven-value domain (which the typed client guarantees), then every
store-mutating handler of the API (field patch, full replace, project
creation, project deletion, flag patches, user create/update/delete, file
upload/delete) preserves the invariant that all stored statuses lie in the
domain. -/
theorem statusDomainPreserved (s : DBState) (pid : String) (hs : statusesValid s) :
    (∀ r : PatchProjectReq, (∀ v, r.status = some v → v ∈ statusDomain) →
      statusesValid (patchProject s pid r).2)
    ∧ (∀ (gen : Nat → String) (r : PutReq), r.status ∈ statusDomain →
      statusesValid (putProject gen s pid r).2)
    ∧ statusesValid (deleteProject s pid).2
    ∧ (∀ iid u, statusesValid (patchBillingItems s iid u).2)
    ∧ (∀ iid u, statusesValid (patchOutboundPayments s iid u).2)
    ∧ (∀ ur, statusesValid (createUser s ur).2)
    ∧ (∀ r : PostReq, r.status ∈ statusDomain → statusesValid (postProject s r).2)
    ∧ (∀ fileId name url, statusesValid (uploadProjectFile s pid fileId name url).2)
    ∧ (∀ fid, statusesValid (deleteFile s fid).2)
    ∧ (∀ uid r, statusesValid (updateUser s uid r).2)
    ∧ (∀ uid, statusesValid (deleteUser s uid).2) := by
  refine ⟨?_, ?_, ?_, ?_, ?_, ?_, ?_, ?_, ?_, ?_, ?_⟩
  · intro r hr
    obtain ⟨st, a1, a2, a3, a4, a5, a6⟩ := r
    simp only [patchProject]
    cases st <;> cases a1 <;> cases a2 <;> cases a3 <;> cases a4 <;> cases a5 <;> cases a6 <;>
      dsimp only <;>
      (repeat'
        first
          | exact hs
          | apply statusesValid_updateProjectCol
          | (intro p hp
             first
               | exact hp
               | exact hr _ rfl))
  · intro gen r hr
    unfold putProject
    cases htx : putTx gen s pid r with
    | error e => exact hs
    | ok s2 =>
      show statusesValid s2
      obtain ⟨_, h2, _⟩ := putTx_ok gen s pid r s2 htx
      intro p hp
      rw [h2] at hp
      rcases List.mem_map.mp hp with ⟨q, hq, rfl⟩
      by_cases h : (q.id == pid) = true
      · rw [if_pos h]
        exact hr
      · rw [if_neg h]
        exact hs q hq
  · intro p hp
    unfold deleteProject at hp
    dsimp only at hp
    split at hp
    · exact hs p (List.mem_filter.mp hp).1
    · exact hs p hp
  · intro iid u p hp
    rw [patchBillingItems_projects] at hp
    exact hs p hp
  · intro iid u p hp
    rw [patchOutboundPayments_projects] at hp
    exact hs p hp
  · intro ur p hp
    rw [createUser_projects] at hp
    exact hs p hp
  · intro r hr
    unfold postProject
    cases htx : postTx s r with
    | error e => exact hs
    | ok s2 =>
      show statusesValid s2
      intro p hp
      rw [postTx_ok_projects s r s2 htx] at hp
      rcases List.mem_append.mp hp with hc | hc
      · exact hs p hc
      · rcases List.mem_singleton.mp hc with rfl
        exact hr
  · intro fileId name url p hp
    rw [uploadProjectFile_projects] at hp
    exact hs p hp
  · intro fid p hp
    rw [deleteFile_projects] at hp
    exact hs p hp
  · intro uid r p hp
    rw [updateUser_projects] at hp
    exact hs p hp
  · intro uid p hp
    exact hs p hp

/-- Witness for C7 (amended): the concrete database satisfies the invariant
and a patch supplying the in-domain status 発注 preserves it. -/
theorem statusDomainPreserved_witness :
    statusesValid (patchProject billingDB "p1" { status := some "発注" }).2 :=
  (statusDomainPreserved billingDB "p1" (by unfold statusesValid; decide)).1
    { status := some "発注" } (fun v hv => by cases hv; decide)

end RenovaFlow
